import Mathlib

/-!
Verification of the Edumate college chatbot core: a shallow embedding of
the intent classifier, knowledge base, response generator, external-engine
adapter and orchestration pipeline, together with theorems settling the
frozen claims about them.

Sources embedded:
- src/backend/services/ai_services.py   (classifier, knowledge base, generator)
- src/backend/services/rasa_service.py  (external dialogue engine adapter)
- src/backend/api/chat_routes.py        (orchestrator, send_message route)
-/

/-! ## Python string primitives -/

/-- Whether the character list `s` starts with the character list `w`. -/
def charsStartWith : List Char → List Char → Bool
  | _, [] => true
  | [], _ :: _ => false
  | a :: as, b :: bs => (a == b) && charsStartWith as bs

/-- Whether `w` occurs as a contiguous run inside `s`. -/
def charsContain (s w : List Char) : Bool :=
  match s with
  | [] => charsStartWith [] w
  | c :: rest => charsStartWith (c :: rest) w || charsContain rest w

/-- Python `w in s` substring test on strings. -/
def pyIn (w s : String) : Bool :=
  charsContain s.toList w.toList

/-- Lower-casing a string character by character, the effect of Python
`str.lower()` on the ASCII strings handled here. -/
def pyLower (s : String) : String :=
  String.mk (s.toList.map Char.toLower)

/-- Split a character list at every character satisfying `p`, keeping empty
segments. -/
def charSplit (p : Char → Bool) : List Char → List (List Char)
  | [] => [[]]
  | c :: rest =>
    let r := charSplit p rest
    if p c then [] :: r
    else
      match r with
      | [] => [[c]]
      | w :: ws => (c :: w) :: ws

/-- Python `str.split()` with no argument: split on whitespace, dropping
empty pieces. -/
def pySplit (s : String) : List String :=
  ((charSplit Char.isWhitespace s.toList).filter (fun w => w.isEmpty = false)).map String.mk

/-- Helper for Python `str.title()`: tracks whether the previous character
was alphabetic. -/
def pyTitleAux : Bool → List Char → List Char
  | _, [] => []
  | prevAlpha, c :: rest =>
    let c' := if c.isAlpha then (if prevAlpha then c.toLower else c.toUpper) else c
    c' :: pyTitleAux c.isAlpha rest

/-- Python `str.title()`: capitalize the first letter of each alphabetic run,
lower-case the rest. -/
def pyTitle (s : String) : String :=
  String.mk (pyTitleAux false s.toList)

/-! ## Knowledge base values

`KBVal` is the shape of the Python nested dict/list/str/int values stored in
`CollegeKnowledgeBase.knowledge_base` (ai_services.py lines 137-214). -/

inductive KBVal where
  | str : String → KBVal
  | nat : Nat → KBVal
  | list : List KBVal → KBVal
  | obj : List (String × KBVal) → KBVal

mutual

/-- Python `json.dumps` with default separators, restricted to the value
shapes present in the knowledge base (ASCII strings with no escapes). -/
def dumps : KBVal → String
  | .str s => "\"" ++ s ++ "\""
  | .nat n => Nat.repr n
  | .list xs => "[" ++ dumpsList xs ++ "]"
  | .obj es => "\x7b" ++ dumpsObj es ++ "\x7d"

/-- Elements of a JSON array joined by ", ". -/
def dumpsList : List KBVal → String
  | [] => ""
  | [x] => dumps x
  | x :: y :: rest => dumps x ++ ", " ++ dumpsList (y :: rest)

/-- Key-value pairs of a JSON object joined by ", " with ": " after each key. -/
def dumpsObj : List (String × KBVal) → String
  | [] => ""
  | [e] => "\"" ++ e.1 ++ "\": " ++ dumps e.2
  | e :: f :: rest => "\"" ++ e.1 ++ "\": " ++ dumps e.2 ++ ", " ++ dumpsObj (f :: rest)

end

/-! ## The knowledge base (ai_services.py lines 137-214) -/

/-- The `courses` entry of `knowledge_base`. -/
def coursesVal : KBVal := .obj [
  ("btech", .obj [
    ("full_name", .str "Bachelor of Technology"),
    ("duration", .str "4 years"),
    ("specializations", .list [.str "Computer Science", .str "Electronics",
      .str "Mechanical", .str "Civil", .str "Electrical"]),
    ("eligibility", .str "12th with PCM, minimum 75%"),
    ("fee_range", .str "1.5-2.5 lakh per year"),
    ("career_options", .list [.str "Software Engineer", .str "Data Scientist",
      .str "System Administrator"])]),
  ("mtech", .obj [
    ("full_name", .str "Master of Technology"),
    ("duration", .str "2 years"),
    ("specializations", .list [.str "AI/ML", .str "VLSI", .str "Power Systems",
      .str "Structural Engineering"]),
    ("eligibility", .str "BE/BTech with 60% minimum"),
    ("fee_range", .str "2-3 lakh per year"),
    ("career_options", .list [.str "Research Scientist", .str "Technical Lead",
      .str "Product Manager"])]),
  ("mba", .obj [
    ("full_name", .str "Master of Business Administration"),
    ("duration", .str "2 years"),
    ("specializations", .list [.str "Marketing", .str "Finance", .str "HR",
      .str "Operations", .str "Strategy"]),
    ("eligibility", .str "Any graduate with 50% + CAT/MAT"),
    ("fee_range", .str "3-5 lakh per year"),
    ("career_options", .list [.str "Manager", .str "Consultant",
      .str "Business Analyst", .str "Entrepreneur"])])]

/-- The `admission_process` entry of `knowledge_base`. -/
def admissionProcessVal : KBVal := .obj [
  ("application_period", .str "May 1 - June 30"),
  ("entrance_exam", .str "JEE Main/Advanced for BTech, GATE for MTech, CAT/MAT for MBA"),
  ("selection_criteria", .str "Entrance exam score + 12th marks + Interview"),
  ("documents_required", .list [
    .str "10th and 12th mark sheets",
    .str "Transfer certificate",
    .str "Character certificate",
    .str "Caste certificate (if applicable)",
    .str "Income certificate",
    .str "Passport size photos"])]

/-- The `facilities` entry of `knowledge_base`. -/
def facilitiesVal : KBVal := .obj [
  ("library", .obj [
    ("books", .str "50,000+ books and journals"),
    ("digital", .str "Access to IEEE, ACM, Springer databases"),
    ("timings", .str "8:00 AM - 10:00 PM (Mon-Sat), 9:00 AM - 6:00 PM (Sun)"),
    ("features", .list [.str "Silent reading zones", .str "Group discussion rooms",
      .str "Computer terminals"])]),
  ("hostel", .obj [
    ("capacity", .str "2000 students"),
    ("room_types", .list [.str "Single", .str "Double", .str "Triple occupancy"]),
    ("facilities", .list [.str "Wi-Fi", .str "Mess", .str "Recreation room",
      .str "Gym", .str "Medical room"]),
    ("fees", .str "Rs. 4,500-8,000 per month"),
    ("mess_charges", .str "Rs. 3,500 per month")]),
  ("labs", .obj [
    ("computer_labs", .str "5 labs with 200+ computers"),
    ("specialized_labs", .list [.str "VLSI Lab", .str "Robotics Lab",
      .str "IoT Lab", .str "AI/ML Lab"]),
    ("equipment", .str "Latest software and hardware"),
    ("access_hours", .str "9:00 AM - 8:00 PM")])]

/-- The `placement_stats` entry of `knowledge_base`. -/
def placementStatsVal : KBVal := .obj [
  ("overall_percentage", .nat 95),
  ("average_package", .str "8.5 LPA"),
  ("highest_package", .str "45 LPA"),
  ("top_recruiters", .list [.str "Microsoft", .str "Google", .str "Amazon",
    .str "TCS", .str "Infosys", .str "Wipro", .str "Accenture", .str "IBM",
    .str "Flipkart", .str "Paytm"]),
  ("placement_process", .list [
    .str "Pre-placement talks (September)",
    .str "Resume preparation workshops",
    .str "Mock interviews",
    .str "Campus drives (November-March)",
    .str "Final placements"])]

/-- `CollegeKnowledgeBase.knowledge_base`, categories in insertion order. -/
def knowledgeBase : List (String × KBVal) :=
  [("courses", coursesVal),
   ("admission_process", admissionProcessVal),
   ("facilities", facilitiesVal),
   ("placement_stats", placementStatsVal)]

/-! ## Knowledge base lookup (`CollegeKnowledgeBase.get_information`,
ai_services.py lines 216-254) -/

/-- Result dictionary of `get_information`. -/
structure LookupResult where
  success : Bool
  data : Option KBVal
  category : Option String
  subcategory : Option String
  error : Option String
  availableCategories : Option (List String)

/-- First value bound to key `c` at the top level of the knowledge base
(Python `self.knowledge_base[category]` together with the `in` test). -/
def kbFind (c : String) : Option KBVal :=
  (knowledgeBase.find? (fun e => e.1 == c)).map (fun e => e.2)

/-- Whether `s` is a key of the object `v` (Python `subcategory in d`). -/
def hasSubkey (v : KBVal) (s : String) : Bool :=
  match v with
  | .obj es => es.any (fun e => e.1 == s)
  | _ => false

/-- Value bound to key `s` in the object `v`. -/
def getSubkey (v : KBVal) (s : String) : Option KBVal :=
  match v with
  | .obj es => (es.find? (fun e => e.1 == s)).map (fun e => e.2)
  | _ => none

/-- `CollegeKnowledgeBase.get_information`.  The Python guard
`if subcategory and subcategory in self.knowledge_base[category]` treats a
missing (`None`) or empty subcategory as falsy. -/
def get_information (category : String) (subcategory : Option String) : LookupResult :=
  match kbFind category with
  | some catData =>
    match subcategory with
    | some s =>
      if s ≠ "" ∧ hasSubkey catData s then
        ⟨true, getSubkey catData s, some category, some s, none, none⟩
      else
        ⟨true, some catData, some category, none, none, none⟩
    | none => ⟨true, some catData, some category, none, none, none⟩
  | none =>
    ⟨false, none, none, none, some ("Category " ++ category ++ " not found"),
      some (knowledgeBase.map (fun e => e.1))⟩

/-! ## Knowledge base search (`CollegeKnowledgeBase.search_information`,
ai_services.py lines 256-296) -/

/-- A search hit: `category`, `subcategory`, `data`, `relevance_score`. -/
structure SearchHit where
  category : String
  subcategory : String
  data : KBVal
  relevance : ℚ

/-- Lower-cased `json.dumps` serialization of one subcategory entry
(`searchable_text` in the source). -/
def entrySearchText (d : KBVal) : String :=
  pyLower (dumps d)

/-- `matches = sum(1 for word in query_words if word in searchable_text)`:
query words are counted with multiplicity. -/
def matchCount (queryWords : List String) (d : KBVal) : Nat :=
  (queryWords.filter (fun w => pyIn w (entrySearchText d))).length

/-- The `(category, subcategory, data)` triples the search loop visits, in
iteration (insertion) order; non-dict categories are skipped. -/
def allSearchEntries : List (String × String × KBVal) :=
  knowledgeBase.flatMap (fun c =>
    match c.2 with
    | KBVal.obj es => es.map (fun e => (c.1, e.1, e.2))
    | _ => [])

/-- The unsorted hit list built by the search loop: entries with at least one
matching query word, with `relevance = matches / len(query_words)`. -/
def searchCandidates (query : String) : List SearchHit :=
  let queryWords := pySplit (pyLower query)
  allSearchEntries.filterMap (fun e =>
    let nMatches := matchCount queryWords e.2.2
    if 0 < nMatches then
      some ⟨e.1, e.2.1, e.2.2, (nMatches : ℚ) / (queryWords.length : ℚ)⟩
    else none)

/-- Stable insertion of a hit into a descending-relevance list: the new
element goes before the first element of relevance ≤ its own. -/
def insertHit (x : SearchHit) : List SearchHit → List SearchHit
  | [] => [x]
  | y :: rest =>
    if y.relevance ≤ x.relevance then x :: y :: rest
    else y :: insertHit x rest

/-- Stable sort by non-increasing relevance, the behavior of Python
the Python stable in-place sort of `results` by `relevance_score` descending. -/
def sortHits : List SearchHit → List SearchHit
  | [] => []
  | x :: xs => insertHit x (sortHits xs)

/-- `CollegeKnowledgeBase.search_information`: sort by relevance descending
and keep the first five hits. -/
def search_information (query : String) : List SearchHit :=
  (sortHits (searchCandidates query)).take 5

/-! ## Intent classifier (`CollegeIntentClassifier`, ai_services.py
lines 17-131) -/

/-- One entry of `self.college_intents`: keywords, regex patterns and a
weight.  Every regex in the source is a literal or a literal followed by a
two-way literal alternation, so each pattern is embedded as the list of its
literal expansions; `re.search` holds iff some expansion is a substring. -/
structure IntentDef where
  name : String
  keywords : List String
  patternAlts : List (List String)
  weight : ℚ

/-- `self.college_intents`, in dict insertion order. -/
def collegeIntents : List IntentDef := [
  ⟨"admission_inquiry",
    ["admission", "apply", "entrance", "eligibility", "requirements", "form", "application"],
    [["how to apply", "how to get admission"], ["admission process", "admission procedure"],
     ["entrance exam"]], 3⟩,
  ⟨"fee_inquiry",
    ["fee", "cost", "price", "payment", "scholarship", "installment", "tuition"],
    [["how much does it cost", "how much fees"], ["fee structure"], ["total cost"]], 3⟩,
  ⟨"course_information",
    ["course", "program", "degree", "subjects", "curriculum", "syllabus", "duration"],
    [["what courses"], ["available programs"], ["course details"]], 3⟩,
  ⟨"placement_inquiry",
    ["placement", "job", "career", "salary", "companies", "recruitment", "internship"],
    [["placement record", "placement statistics"], ["job opportunities"],
     ["career prospects"]], 3⟩,
  ⟨"hostel_accommodation",
    ["hostel", "accommodation", "room", "mess", "residence", "boarding"],
    [["hostel facilities", "hostel booking"], ["accommodation available"],
     ["room allocation"]], 2⟩,
  ⟨"faculty_information",
    ["faculty", "professor", "teacher", "staff", "instructor", "qualification"],
    [["faculty details", "faculty information"], ["about professors"],
     ["teaching staff"]], 2⟩,
  ⟨"campus_facilities",
    ["library", "lab", "sports", "canteen", "wifi", "transport", "medical"],
    [["campus facilities"], ["library timings"], ["sports complex"]], 2⟩,
  ⟨"academic_schedule",
    ["timetable", "schedule", "exam", "result", "calendar", "semester"],
    [["class schedule", "class timetable"], ["exam dates", "exam schedule"],
     ["academic calendar"]], 2⟩]

/-- Score of one intent on the lower-cased text: `weight` per keyword
occurring as a substring plus `weight * 1.5` per matching pattern. -/
def intentScore (i : IntentDef) (textLower : String) : ℚ :=
  ((i.keywords.filter (fun k => pyIn k textLower)).length : ℚ) * i.weight +
  ((i.patternAlts.filter (fun p => p.any (fun a => pyIn a textLower))).length : ℚ) *
    (i.weight * (3 / 2))

/-- The `intent_scores` dictionary, in intent insertion order. -/
def intentScoresOf (text : String) : List (String × ℚ) :=
  collegeIntents.map (fun i => (i.name, intentScore i (pyLower text)))

/-- Python `max(items, key=lambda x: x[1])`: the first item with maximal
second component. -/
def pyMaxSnd : (String × ℚ) → List (String × ℚ) → (String × ℚ)
  | best, [] => best
  | best, x :: rest => pyMaxSnd (if best.2 < x.2 then x else best) rest

/-- The `top_intent` pair selected by `max`; `("", 0)` if there were no
intents (never the case for the concrete table). -/
def topIntentOf (text : String) : String × ℚ :=
  match intentScoresOf text with
  | [] => ("", 0)
  | s :: rest => pyMaxSnd s rest

/-- The generic fallback keyword list (`college_keywords`). -/
def collegeKeywords : List String :=
  ["college", "university", "student", "education", "academic"]

/-- Result dictionary of `classify_intent`.  `allScores` is present on the
normal paths and absent on the exception path, where `errorMsg` is set. -/
structure ClassificationResult where
  intent : String
  confidence : ℚ
  allScores : Option (List (String × ℚ))
  errorMsg : Option String
  isCollegeRelated : Bool
deriving DecidableEq

/-- `CollegeIntentClassifier.classify_intent`, lines 74-122 (the body of the
`try`).  The `if intent_scores:` guard is folded into the nonemptiness test
on the concrete score list. -/
def classify_intent (text : String) : ClassificationResult :=
  let textLower := pyLower text
  let intentScores := intentScoresOf text
  let confidence := min ((topIntentOf text).2 / 10) 1
  if intentScores ≠ [] ∧ 3 / 10 ≤ confidence then
    ⟨(topIntentOf text).1, confidence, some intentScores, none, true⟩
  else if collegeKeywords.any (fun k => pyIn k textLower) then
    ⟨"general_college_inquiry", 1 / 2, some intentScores, none, true⟩
  else
    ⟨"unknown", 0, some intentScores, none, false⟩

/-- The `except` branch of `classify_intent`, lines 124-131: an internal
fault with message `e` is converted into an error result. -/
def classifyIntentHandler (e : String) : ClassificationResult :=
  ⟨"error", 0, none, some e, false⟩

/-- The whole `try`/`except` of `classify_intent`: `fault = some e` models a
call whose body raises an internal fault with message `e`. -/
def classifyIntentCaught (fault : Option String) (text : String) : ClassificationResult :=
  match fault with
  | some e => classifyIntentHandler e
  | none => classify_intent text

/-! ## Response generator (`CollegeResponseGenerator`, ai_services.py
lines 298-614) -/

/-- `CollegeResponseGenerator._extract_course_from_query`, lines 422-433. -/
def extract_course_from_query (query : String) : String :=
  let queryLower := pyLower query
  if ["btech", "b.tech", "bachelor", "engineering"].any (fun t => pyIn t queryLower) then
    "btech"
  else if ["mtech", "m.tech", "master", "technology"].any (fun t => pyIn t queryLower) then
    "mtech"
  else if ["mba", "management", "business"].any (fun t => pyIn t queryLower) then
    "mba"
  else
    "btech"

/-- String field of a knowledge entry object. -/
def kbGetStr (v : KBVal) (k : String) : Option String :=
  match getSubkey v k with
  | some (.str s) => some s
  | _ => none

/-- List field of a knowledge entry object. -/
def kbGetList (v : KBVal) (k : String) : Option (List KBVal) :=
  match getSubkey v k with
  | some (.list xs) => some xs
  | _ => none

/-- Python `str(v)` for the scalar values that reach formatted positions;
non-scalars never do in the concrete knowledge base. -/
def pyStr : KBVal → String
  | .str s => s
  | .nat n => Nat.repr n
  | v => dumps v

/-- The items as a newline-joined bulleted list. -/
def bulletLines (items : List KBVal) : String :=
  String.intercalate "\n" (items.map (fun x => "• " ++ pyStr x))

/-- The items joined with a comma and a space. -/
def commaJoin (items : List KBVal) : String :=
  String.intercalate ", " (items.map pyStr)

/-- The static apology returned by the `except` branch of
`generate_response` (line 420); in this embedding it is also the value of
the impossible missing-field branches of the per-intent helpers, which in
Python raise KeyError and are caught by that same `except`. -/
def processingApology : String :=
  "I apologize, but I\x27m having trouble processing your request right now. Please try asking about specific topics like admissions, courses, fees, or placements."

/-- The `admission_inquiry` response template applied to its fields. -/
def admissionTemplate (ap ee sc docs : String) : String :=
  "\n🎓 **Admission Information:**\n\n**Application Period:** " ++ ap ++
  "\n**Entrance Exam:** " ++ ee ++
  "\n**Selection Process:** " ++ sc ++
  "\n\n**Required Documents:**\n" ++ docs ++
  "\n\n**Next Steps:**\n1. Fill online application form\n2. Pay application fee\n3. Take entrance exam\n4. Attend counseling (if selected)\n\n📞 **Contact:** admissions@college.edu | 0123-456-7890\n            "

/-- The `course_information` response template applied to its fields. -/
def courseTemplate (courseName duration specializations eligibility feeRange careers : String) : String :=
  "\n📚 **" ++ courseName ++ " Details:**\n\n**Duration:** " ++ duration ++
  "\n**Specializations Available:**\n" ++ specializations ++
  "\n\n**Eligibility:** " ++ eligibility ++
  "\n**Fee Range:** " ++ feeRange ++
  "\n\n**Career Opportunities:**\n" ++ careers ++
  "\n\n**Would you like more details about any specific specialization?**\n            "

/-- The `fee_inquiry` response template applied to its fields. -/
def feeTemplate (course feeRange : String) : String :=
  "\n💰 **Fee Structure for " ++ course ++ ":**\n\n**Annual Fees:** " ++ feeRange ++
  "\n**Additional Costs:**\n• Hostel: Rs. 4,500-8,000/month\n• Mess: Rs. 3,500/month\n• Books & Materials: Rs. 10,000/year\n\n**Payment Options:**\n• Annual payment (5% discount)\n• Semester-wise payment\n• EMI facility available\n\n**Scholarships Available:**\n• Merit-based scholarships up to 50%\n• Need-based financial assistance\n• Government scholarships for eligible categories\n            "

/-- The `placement_inquiry` response template applied to its fields. -/
def placementTemplate (overall avg highest recruiters process : String) : String :=
  "\n📈 **Placement Statistics:**\n\n**Placement Rate:** " ++ overall ++
  "%\n**Average Package:** Rs. " ++ avg ++
  "\n**Highest Package:** Rs. " ++ highest ++
  "\n\n**Top Recruiters:**\n" ++ recruiters ++
  "\n\n**Placement Process:**\n" ++ process ++
  "\n\n**Industry Connections:**\n• Regular industry visits\n• Guest lectures by professionals  \n• Internship opportunities\n• Skill development workshops\n            "

/-- `CollegeResponseGenerator._generate_admission_response`, lines 435-450. -/
def generateAdmissionResponse : String :=
  let info := get_information "admission_process" none
  match info.success, info.data with
  | true, some d =>
    (match kbGetStr d "application_period", kbGetStr d "entrance_exam",
           kbGetStr d "selection_criteria", kbGetList d "documents_required" with
     | some ap, some ee, some sc, some docs => admissionTemplate ap ee sc (bulletLines docs)
     | _, _, _, _ => processingApology)
  | _, _ => "Please contact our admissions office for detailed admission information."

/-- `CollegeResponseGenerator._generate_course_response`, lines 452-470. -/
def generateCourseResponse (course : String) : String :=
  let info := get_information "courses" (some course)
  match info.success, info.data with
  | true, some d =>
    (match kbGetStr d "full_name", kbGetStr d "duration", kbGetList d "specializations",
           kbGetStr d "eligibility", kbGetStr d "fee_range", kbGetList d "career_options" with
     | some fn, some du, some sp, some el, some fr, some co =>
       courseTemplate fn du (bulletLines sp) el fr (bulletLines co)
     | _, _, _, _, _, _ => processingApology)
  | _, _ =>
    "I don\x27t have detailed information about " ++ course ++
    ". Please contact our academic office for specific course details."

/-- `CollegeResponseGenerator._generate_fee_response`, lines 472-484. -/
def generateFeeResponse (course : String) : String :=
  let info := get_information "courses" (some course)
  match info.success, info.data with
  | true, some d =>
    (match kbGetStr d "full_name", kbGetStr d "fee_range" with
     | some fn, some fr => feeTemplate fn fr
     | _, _ => processingApology)
  | _, _ => "Please contact our accounts office for detailed fee information."

/-- `CollegeResponseGenerator._generate_placement_response`, lines 486-503. -/
def generatePlacementResponse : String :=
  let info := get_information "placement_stats" none
  match info.success, info.data with
  | true, some d =>
    (match getSubkey d "overall_percentage", kbGetStr d "average_package",
           kbGetStr d "highest_package", kbGetList d "top_recruiters",
           kbGetList d "placement_process" with
     | some (.nat op), some ap, some hp, some tr, some pp =>
       placementTemplate (Nat.repr op) ap hp (bulletLines (tr.take 5)) (bulletLines pp)
     | _, _, _, _, _ => processingApology)
  | _, _ => "Please contact our placement cell for current placement statistics."

/-- `CollegeResponseGenerator._generate_hostel_response`, lines 505-535. -/
def generateHostelResponse : String :=
  let info := get_information "facilities" (some "hostel")
  match info.success, info.data with
  | true, some d =>
    (match kbGetStr d "capacity", kbGetList d "room_types", kbGetList d "facilities",
           kbGetStr d "fees", kbGetStr d "mess_charges" with
     | some cap, some rt, some fac, some fees, some mc =>
       "\n🏠 **Hostel Accommodation:**\n\n**Capacity:** " ++ cap ++
       "\n**Room Types:** " ++ commaJoin rt ++
       "\n\n**Facilities:**\n" ++ bulletLines fac ++
       "\n\n**Fees:**\n• Accommodation: " ++ fees ++
       "\n• Mess charges: " ++ mc ++
       "\n\n**Booking Process:**\n1. Complete admission formalities\n2. Submit hostel application\n3. Pay hostel fees and security deposit\n4. Get room allocation\n\n📞 **Contact Hostel Office:** hostel@college.edu\n            "
     | _, _, _, _, _ => processingApology)
  | _, _ => "Please contact the hostel office for accommodation details."

/-- `CollegeResponseGenerator._generate_facilities_response`, lines 537-569. -/
def generateFacilitiesResponse : String :=
  let info := get_information "facilities" none
  match info.success, info.data with
  | true, some d =>
    (match getSubkey d "library", getSubkey d "labs", getSubkey d "hostel" with
     | some lib, some labs, some hostel =>
       (match kbGetStr lib "books", kbGetStr lib "digital", kbGetStr lib "timings",
              kbGetStr labs "computer_labs", kbGetList labs "specialized_labs",
              kbGetStr labs "access_hours", kbGetStr hostel "capacity",
              kbGetList hostel "room_types" with
        | some bk, some dg, some tm, some cl, some sl, some ah, some cap, some rt =>
          "\n🏫 **Campus Facilities:**\n\n**📚 Library:**\n• " ++ bk ++
          "\n• Digital access: " ++ dg ++
          "\n• Timings: " ++ tm ++
          "\n\n**💻 Computer Labs:**\n• " ++ cl ++
          "\n• Specialized labs: " ++ commaJoin sl ++
          "\n• Access: " ++ ah ++
          "\n\n**🏠 Hostel:**\n• Capacity: " ++ cap ++
          "\n• Types: " ++ commaJoin rt ++
          "\n\n**Additional Facilities:**\n• Sports complex with gym\n• Medical center\n• Cafeteria and mess\n• Transportation\n• Wi-Fi campus\n            "
        | _, _, _, _, _, _, _, _ => processingApology)
     | _, _, _ => processingApology)
  | _, _ => "Please visit our campus to see all the facilities we offer."

/-- One `• Key: value` line of the search-based response. -/
def formatHitField (e : String × KBVal) : String :=
  let value :=
    match e.2 with
    | .list vs => String.intercalate ", " ((vs.take 3).map pyStr)
    | v => pyStr v
  "• " ++ pyTitle (e.1.replace "_" " ") ++ ": " ++ value ++ "\n"

/-- One enumerated block of the search-based response. -/
def formatHit (i : Nat) (r : SearchHit) : String :=
  "**" ++ Nat.repr i ++ ". " ++ pyTitle r.category ++ ":**\n" ++
  (match r.data with
   | .obj es => String.join (es.map formatHitField)
   | _ => "") ++ "\n"

/-- `CollegeResponseGenerator._generate_search_based_response`, lines 571-589. -/
def generateSearchBasedResponse (results : List SearchHit) (query : String) : String :=
  "Here\x27s what I found related to \x27" ++ query ++ "\x27:\n\n" ++
  String.join (((results.take 3).enumFrom 1).map (fun p => formatHit p.1 p.2)) ++
  "Would you like more specific information about any of these topics?"

/-- `CollegeResponseGenerator._generate_default_response`, lines 591-614. -/
def generateDefaultResponse : String :=
  "\n🎓 **I\x27m here to help with college information!**\n\n**Popular topics I can assist with:**\n• 📝 Admissions and eligibility criteria\n• 💰 Fee structure and scholarships\n• 📚 Available courses and specializations\n• 🏢 Placement statistics and career prospects\n• 🏠 Hostel accommodation and facilities\n• 🏫 Campus facilities and infrastructure\n• 📅 Academic calendar and schedules\n\n**Try asking me:**\n• \"What are the admission requirements for B.Tech?\"\n• \"Tell me about MBA fees and scholarships\"\n• \"How is the placement record?\"\n• \"What hostel facilities are available?\"\n\n**Need immediate help?** Contact our office:\n📞 Phone: 0123-456-7890\n📧 Email: info@college.edu\n        "

/-- `CollegeResponseGenerator.generate_response`, lines 377-420. -/
def generate_response (intent query : String) : String :=
  if intent = "admission_inquiry" then generateAdmissionResponse
  else if intent = "course_information" then
    generateCourseResponse (extract_course_from_query query)
  else if intent = "fee_inquiry" then
    generateFeeResponse (extract_course_from_query query)
  else if intent = "placement_inquiry" then generatePlacementResponse
  else if intent = "hostel_accommodation" then generateHostelResponse
  else if intent = "campus_facilities" then generateFacilitiesResponse
  else
    let searchResults := search_information query
    if searchResults.isEmpty = false then generateSearchBasedResponse searchResults query
    else generateDefaultResponse

/-! ## External dialogue engine adapter (`RasaService.send_message`,
rasa_service.py lines 12-41) -/

/-- One message object of the JSON response list of the engine. -/
structure RasaMsg where
  text : Option String
  intentName : Option String
  intentConfidence : Option ℚ
deriving DecidableEq

/-- Outcome of the HTTP POST to the engine: either an exception
(unreachable / timeout, with `str(e)` as message) or a response with a
status code and a decoded JSON list. -/
inductive HttpOutcome where
  | exn : String → HttpOutcome
  | resp : Nat → List RasaMsg → HttpOutcome

/-- Return dictionary of `RasaService.send_message`. -/
structure RasaResult where
  success : Bool
  message : Option String
  intent : Option String
  confidence : Option ℚ
  error : Option String
deriving DecidableEq

/-- `RasaService.send_message`: status 200 with a nonempty list succeeds
with the first message; any other status, an empty list, or an exception
fails with an error string. -/
def rasa_send_message (o : HttpOutcome) : RasaResult :=
  match o with
  | .exn e => ⟨false, none, none, none, some e⟩
  | .resp status body =>
    if status = 200 then
      match body with
      | m :: _ =>
        ⟨true, some (m.text.getD "No response"), m.intentName, m.intentConfidence, none⟩
      | [] => ⟨false, none, none, none, some ("HTTP " ++ Nat.repr status)⟩
    else
      ⟨false, none, none, none, some ("HTTP " ++ Nat.repr status)⟩

/-! ## Orchestrator (`send_message` route, chat_routes.py lines 17-261)

The database, session and analytics writes are thin out-of-scope
collaborators; the embedded pipeline is STEP 1 (classification and the
restriction gate), STEP 2 (routing between local generation, the external
engine, and the fallback), and STEP 3 (response translation). -/

/-- External collaborators of one request: the outcome of the engine call
as a function of the message actually sent, the two translation
directions, and the detected source language. -/
structure PipelineEnv where
  rasaOutcome : String → HttpOutcome
  translateForRasa : String → String → String
  translateFromRasa : String → String → String
  detectedLanguage : String

/-- The response payload of the route, extended with two bookkeeping
fields: `rasaCalled` / `generatorCalled` record whether the external
engine and the local response generator were invoked, and `botTextEn`
is the chosen response text before STEP 3 translation. -/
structure PipelineResult where
  success : Bool
  message : String
  intent : String
  confidence : Option ℚ
  responseSource : Option String
  restricted : Bool
  rasaCalled : Bool
  generatorCalled : Bool
  botTextEn : String

/-- The preferred language defaults to en; an empty or auto value adopts
the detected language. -/
def resolveLanguage (preferred0 detected : String) : String :=
  if preferred0 = "" ∨ preferred0 = "auto" then detected else preferred0

/-- The fixed restricted-topic redirect message (chat_routes.py 82-90). -/
def restrictedResponseText : String :=
  "I\x27m Edumate, your college assistant! I can help you with:\n\n🎓 Admissions and eligibility\n💰 Fee structure and scholarships\n📚 Available courses and programs\n🏢 Placement statistics and careers\n🏠 Hostel and campus facilities\n\nPlease ask me about college-related topics!"

/-- Python `x or y` on an optional string (`None` and the empty string are falsy). -/
def pyOrStr (x : Option String) (y : String) : String :=
  match x with
  | some s => if s = "" then y else s
  | none => y

/-- Python `x or y` on an optional number (`None` and `0.0` are falsy). -/
def pyOrQ (x : Option ℚ) (y : ℚ) : ℚ :=
  match x with
  | some c => if c = 0 then y else c
  | none => y

/-- STEP 3 plus result packaging for the non-restricted paths. -/
def finishPipeline (env : PipelineEnv) (pref botText intent : String) (conf : ℚ)
    (source : String) (rasaCalled generatorCalled : Bool) : PipelineResult :=
  let finalText := if pref ≠ "en" then env.translateFromRasa botText pref else botText
  ⟨true, finalText, intent, some conf, some source, false, rasaCalled, generatorCalled, botText⟩

/-- The `send_message` route pipeline (chat_routes.py lines 77-252), for a
validated nonempty message.  The `except ai_error` handler (lines 171-190)
is unreachable in this embedding because the embedded classifier and
generator are total. -/
def chat_send_message (env : PipelineEnv) (messageText preferredLanguage0 : String) :
    PipelineResult :=
  let pref := resolveLanguage preferredLanguage0 env.detectedLanguage
  let ir := classify_intent messageText
  if ir.isCollegeRelated = false then
    let finalText :=
      if pref ≠ "en" then env.translateFromRasa restrictedResponseText pref
      else restrictedResponseText
    ⟨true, finalText, "non_college_topic", none, none, true, false, false,
      restrictedResponseText⟩
  else if (7 : ℚ) / 10 ≤ ir.confidence then
    finishPipeline env pref (generate_response ir.intent messageText) ir.intent
      ir.confidence "college_ai" false true
  else
    let rasaMessage := env.translateForRasa messageText env.detectedLanguage
    let rr := rasa_send_message (env.rasaOutcome rasaMessage)
    if rr.success then
      finishPipeline env pref (rr.message.getD "") (pyOrStr rr.intent ir.intent)
        (pyOrQ rr.confidence ir.confidence) "rasa" true false
    else
      finishPipeline env pref generateDefaultResponse "fallback" (1 / 2)
        "college_ai_fallback" true true

/-! ## Lemmas about the stable search sort -/

theorem insertHit_perm (x : SearchHit) (l : List SearchHit) :
    (insertHit x l).Perm (x :: l) := by
  induction l with
  | nil => exact List.Perm.refl _
  | cons y rest ih =>
    unfold insertHit
    split
    · exact List.Perm.refl _
    · exact (List.Perm.cons y ih).trans (List.Perm.swap x y rest)

theorem sortHits_perm (l : List SearchHit) : (sortHits l).Perm l := by
  induction l with
  | nil => exact List.Perm.refl _
  | cons x rest ih =>
    exact (insertHit_perm x (sortHits rest)).trans (List.Perm.cons x ih)

theorem insertHit_pairwise (x : SearchHit) (l : List SearchHit)
    (h : l.Pairwise (fun a b => b.relevance ≤ a.relevance)) :
    (insertHit x l).Pairwise (fun a b => b.relevance ≤ a.relevance) := by
  induction l with
  | nil => simp [insertHit]
  | cons y rest ih =>
    rcases List.pairwise_cons.mp h with ⟨hy, hrest⟩
    unfold insertHit
    split
    · rename_i hc
      refine List.pairwise_cons.mpr ⟨?_, h⟩
      intro z hz
      rcases List.mem_cons.mp hz with rfl | hz
      · exact hc
      · exact le_trans (hy z hz) hc
    · rename_i hc
      refine List.pairwise_cons.mpr ⟨?_, ih hrest⟩
      intro z hz
      rcases List.mem_cons.mp ((insertHit_perm x rest).mem_iff.mp hz) with rfl | h1
      · exact le_of_lt (lt_of_not_le hc)
      · exact hy z h1

theorem sortHits_pairwise (l : List SearchHit) :
    (sortHits l).Pairwise (fun a b => b.relevance ≤ a.relevance) := by
  induction l with
  | nil => simp [sortHits]
  | cons x rest ih => exact insertHit_pairwise x (sortHits rest) ih

theorem insertHit_filter (x : SearchHit) (l : List SearchHit) (r : ℚ) :
    (insertHit x l).filter (fun h => h.relevance == r) =
      if x.relevance = r then x :: l.filter (fun h => h.relevance == r)
      else l.filter (fun h => h.relevance == r) := by
  induction l with
  | nil => by_cases hx : x.relevance = r <;> simp [insertHit, List.filter_cons, hx]
  | cons y rest ih =>
    unfold insertHit
    split
    · by_cases hx : x.relevance = r <;> simp [List.filter_cons, hx]
    · rename_i hc
      by_cases hx : x.relevance = r
      · have hyr : y.relevance ≠ r := fun he => hc (le_of_eq (he.trans hx.symm))
        simp [List.filter_cons, hyr, hx, ih]
      · simp [List.filter_cons, ih, hx]

theorem sortHits_filter (l : List SearchHit) (r : ℚ) :
    (sortHits l).filter (fun h => h.relevance == r) =
      l.filter (fun h => h.relevance == r) := by
  induction l with
  | nil => rfl
  | cons x rest ih =>
    show (insertHit x (sortHits rest)).filter (fun h => h.relevance == r) = _
    rw [insertHit_filter, ih]
    by_cases hx : x.relevance = r <;> simp [List.filter_cons, hx]

theorem mem_searchCandidates (q : String) (h : SearchHit)
    (hm : h ∈ searchCandidates q) :
    1 ≤ matchCount (pySplit (pyLower q)) h.data ∧
    h.relevance = (matchCount (pySplit (pyLower q)) h.data : ℚ) /
      ((pySplit (pyLower q)).length : ℚ) := by
  simp only [searchCandidates] at hm
  rcases List.mem_filterMap.mp hm with ⟨e, _, heq⟩
  by_cases hpos : 0 < matchCount (pySplit (pyLower q)) e.2.2
  · rw [if_pos hpos] at heq
    cases heq
    exact ⟨hpos, rfl⟩
  · rw [if_neg hpos] at heq
    cases heq

set_option maxRecDepth 100000

/-- C1 (amended): for every query, `search_information` returns at most 5
hits, pairwise sorted by non-increasing relevance, every returned hit has
relevance equal to the number of query-word occurrences (counted with
multiplicity, not distinct words) found as substrings of the serialized
text of the entry divided by the total number of query words, with at least
one occurrence matched so zero-match entries are never returned; the output
is an order-preserving selection from the stably sorted candidate list, on
which hits of equal relevance keep their insertion (category/subcategory
iteration) order. -/
theorem search_spec (q : String) :
    (search_information q).length ≤ 5 ∧
    (search_information q).Pairwise (fun a b => b.relevance ≤ a.relevance) ∧
    (∀ h ∈ search_information q,
      1 ≤ matchCount (pySplit (pyLower q)) h.data ∧
      h.relevance = (matchCount (pySplit (pyLower q)) h.data : ℚ) /
        ((pySplit (pyLower q)).length : ℚ)) ∧
    (search_information q).Sublist (sortHits (searchCandidates q)) ∧
    (∀ r : ℚ, (sortHits (searchCandidates q)).filter (fun h => h.relevance == r) =
      (searchCandidates q).filter (fun h => h.relevance == r)) := by
  refine ⟨?_, ?_, ?_, ?_, ?_⟩
  · simp only [search_information, List.length_take]
    exact min_le_left 5 _
  · exact (sortHits_pairwise (searchCandidates q)).sublist (List.take_sublist 5 _)
  · intro h hm
    have h1 : h ∈ sortHits (searchCandidates q) :=
      (List.take_sublist 5 _).mem hm
    exact mem_searchCandidates q h ((sortHits_perm (searchCandidates q)).mem_iff.mp h1)
  · exact List.take_sublist 5 _
  · exact sortHits_filter (searchCandidates q)

/-- Witness for C1: the query "fee" produces a hit, and that hit satisfies
the relevance formula with at least one matched occurrence. -/
theorem search_spec_witness :
    ∃ h ∈ search_information "fee",
      1 ≤ matchCount (pySplit (pyLower "fee")) h.data ∧
      h.relevance = (matchCount (pySplit (pyLower "fee")) h.data : ℚ) /
        ((pySplit (pyLower "fee")).length : ℚ) := by
  have hne : search_information "fee" ≠ [] := by
    have h0 : (search_information "fee").isEmpty = false := by with_unfolding_all decide
    intro h
    rw [h] at h0
    exact Bool.noConfusion h0
  refine ⟨(search_information "fee").head hne, List.head_mem hne, ?_⟩
  exact (search_spec "fee").2.2.1 _ (List.head_mem hne)

/-- The relevance the claim asserts: distinct query words matched, over
total query words (this follows the wording of the claim, not the source). -/
def claimDistinctMatches (q : String) (d : KBVal) : Nat :=
  (((pySplit (pyLower q)).dedup).filter (fun w => pyIn w (entrySearchText d))).length

/-- Counterexample to C1 as stated: on the query "fee fee" the code counts
the repeated word twice, so a returned hit has relevance 1 where the
distinct-word formula of the claim yields 1/2. -/
theorem search_distinct_counterexample :
    ∃ h ∈ search_information "fee fee",
      h.relevance ≠ (claimDistinctMatches "fee fee" h.data : ℚ) /
        ((pySplit (pyLower "fee fee")).length : ℚ) := by
  with_unfolding_all decide

/-- C2: when the maximum weighted intent score normalized by 10 is below
0.3 and the lower-cased text contains no generic domain keyword,
`classify_intent` returns intent "unknown", confidence 0, and
is_college_related = false. -/
theorem classify_out_of_domain (text : String)
    (hscore : (topIntentOf text).2 / 10 < 3 / 10)
    (hkw : collegeKeywords.any (fun k => pyIn k (pyLower text)) = false) :
    classify_intent text = ⟨"unknown", 0, some (intentScoresOf text), none, false⟩ := by
  have h1 : ¬ (intentScoresOf text ≠ [] ∧ (3 : ℚ) / 10 ≤ min ((topIntentOf text).2 / 10) 1) := by
    rintro ⟨-, h⟩
    exact absurd (h.trans (min_le_left _ _)) (not_le.mpr hscore)
  simp only [classify_intent]
  rw [if_neg h1, if_neg (by simp [hkw])]

/-- Witness for C2 at the concrete text "hello there". -/
theorem classify_out_of_domain_witness :
    classify_intent "hello there" =
      ⟨"unknown", 0, some (intentScoresOf "hello there"), none, false⟩ :=
  classify_out_of_domain "hello there" (by with_unfolding_all decide)
    (by with_unfolding_all decide)

/-- C6: a present category with an absent subcategory (or no subcategory)
returns the full category subtree with success; an absent category fails
and carries the top-level category names. -/
theorem get_information_spec :
    (∀ c catData s, kbFind c = some catData → hasSubkey catData s = false →
      (get_information c (some s)).success = true ∧
      (get_information c (some s)).data = some catData) ∧
    (∀ c catData, kbFind c = some catData →
      (get_information c none).success = true ∧
      (get_information c none).data = some catData) ∧
    (∀ c s, kbFind c = none →
      (get_information c s).success = false ∧
      (get_information c s).availableCategories =
        some (knowledgeBase.map (fun e => e.1))) := by
  refine ⟨?_, ?_, ?_⟩
  · intro c catData s hfind hsub
    simp only [get_information, hfind]
    rw [if_neg]
    · exact ⟨rfl, rfl⟩
    · rintro ⟨-, hs⟩
      rw [hsub] at hs
      exact Bool.noConfusion hs
  · intro c catData hfind
    simp only [get_information, hfind]
    exact ⟨trivial, trivial⟩
  · intro c s hfind
    simp only [get_information, hfind]
    exact ⟨trivial, trivial⟩

/-- Witness for C6: "courses" with a bogus subcategory yields the whole
courses subtree; a bogus category fails with the four category names. -/
theorem get_information_spec_witness :
    ((get_information "courses" (some "nonexistent")).success = true ∧
     (get_information "courses" (some "nonexistent")).data = some coursesVal) ∧
    ((get_information "nonexistent_category" none).success = false ∧
     (get_information "nonexistent_category" none).availableCategories =
       some ["courses", "admission_process", "facilities", "placement_stats"]) := by
  constructor
  · exact get_information_spec.1 "courses" coursesVal "nonexistent" rfl rfl
  · have h := get_information_spec.2.2 "nonexistent_category" none rfl
    exact ⟨h.1, h.2.trans (by rfl)⟩

/-- C7: on "What is the fee for mtech", course extraction yields "mtech"
and the generated fee response contains the literal "2-3 lakh per year". -/
theorem fee_mtech_end_to_end :
    extract_course_from_query "What is the fee for mtech" = "mtech" ∧
    pyIn "2-3 lakh per year" (generate_response "fee_inquiry" "What is the fee for mtech") = true :=
  ⟨rfl, rfl⟩

/-- C8 (amended): a classification fault is caught, never propagated, and
converted into a result with intent label "error" (not "unknown"),
confidence 0 and is_college_related = false, carrying the fault message. -/
theorem classifier_fault_fail_soft (e text : String) :
    classifyIntentCaught (some e) text = ⟨"error", 0, none, some e, false⟩ := rfl

/-- Counterexample to C8 as stated: the intent label of the caught-fault
result is the string error, not unknown. -/
theorem classifier_fault_intent_not_unknown :
    (classifyIntentCaught (some "boom") "admission").intent = "error" ∧
    (classifyIntentCaught (some "boom") "admission").intent ≠ "unknown" :=
  ⟨rfl, by decide⟩

/-- C9 (amended): all three adapter failure causes yield success = false
with an error string; a non-success status is reported as "HTTP \<status\>"
with status ≠ 200, an empty response list as "HTTP 200", and these two are
distinct values, while unreachable/timeout reports the exception text. -/
theorem rasa_failure_signals :
    (∀ e, rasa_send_message (.exn e) = ⟨false, none, none, none, some e⟩) ∧
    (∀ s body, s ≠ 200 → rasa_send_message (.resp s body) =
      ⟨false, none, none, none, some ("HTTP " ++ Nat.repr s)⟩) ∧
    rasa_send_message (.resp 200 []) = ⟨false, none, none, none, some "HTTP 200"⟩ ∧
    rasa_send_message (.resp 404 []) ≠ rasa_send_message (.resp 200 []) := by
  refine ⟨fun e => rfl, ?_, rfl, ?_⟩
  · intro s body hs
    simp only [rasa_send_message]
    rw [if_neg hs]
  · with_unfolding_all decide

/-- Witness for C9 at status 503. -/
theorem rasa_failure_signals_witness :
    rasa_send_message (.resp 503 []) = ⟨false, none, none, none, some "HTTP 503"⟩ :=
  (rasa_failure_signals.2.1 503 [] (by decide)).trans (by rfl)

/-- Counterexample to C9 as stated: a connection error whose exception text
is "HTTP 200" produces exactly the same failure value as an empty response
list, so the three causes are not pairwise distinct in the returned value. -/
theorem rasa_failure_collision :
    rasa_send_message (.exn "HTTP 200") = rasa_send_message (.resp 200 []) := rfl

/-- C10: course extraction always yields one of "btech"/"mtech"/"mba"; the
alias groups are tested in the order btech, mtech, mba, the earliest
matching group wins, and no match defaults to "btech". -/
theorem extract_course_order (q : String) :
    (extract_course_from_query q = "btech" ∨ extract_course_from_query q = "mtech" ∨
      extract_course_from_query q = "mba") ∧
    (["btech", "b.tech", "bachelor", "engineering"].any (fun t => pyIn t (pyLower q)) = true →
      extract_course_from_query q = "btech") ∧
    (["btech", "b.tech", "bachelor", "engineering"].any (fun t => pyIn t (pyLower q)) = false →
     ["mtech", "m.tech", "master", "technology"].any (fun t => pyIn t (pyLower q)) = true →
      extract_course_from_query q = "mtech") ∧
    (["btech", "b.tech", "bachelor", "engineering"].any (fun t => pyIn t (pyLower q)) = false →
     ["mtech", "m.tech", "master", "technology"].any (fun t => pyIn t (pyLower q)) = false →
     ["mba", "management", "business"].any (fun t => pyIn t (pyLower q)) = true →
      extract_course_from_query q = "mba") ∧
    (["btech", "b.tech", "bachelor", "engineering"].any (fun t => pyIn t (pyLower q)) = false →
     ["mtech", "m.tech", "master", "technology"].any (fun t => pyIn t (pyLower q)) = false →
     ["mba", "management", "business"].any (fun t => pyIn t (pyLower q)) = false →
      extract_course_from_query q = "btech") := by
  unfold extract_course_from_query
  by_cases h1 : ["btech", "b.tech", "bachelor", "engineering"].any (fun t => pyIn t (pyLower q)) = true <;>
    by_cases h2 : ["mtech", "m.tech", "master", "technology"].any (fun t => pyIn t (pyLower q)) = true <;>
      by_cases h3 : ["mba", "management", "business"].any (fun t => pyIn t (pyLower q)) = true <;>
        simp_all

/-- Witness for C10: a btech alias beats a later mba alias, "master" yields
"mtech", and an alias-free query defaults to "btech". -/
theorem extract_course_order_witness :
    extract_course_from_query "bachelor of business" = "btech" ∧
    extract_course_from_query "master of business" = "mtech" ∧
    extract_course_from_query "no course words here" = "btech" :=
  ⟨(extract_course_order "bachelor of business").2.1 (by with_unfolding_all decide),
   (extract_course_order "master of business").2.2.1 (by with_unfolding_all decide)
     (by with_unfolding_all decide),
   (extract_course_order "no course words here").2.2.2.2 (by with_unfolding_all decide)
     (by with_unfolding_all decide) (by with_unfolding_all decide)⟩

/-- A concrete environment for witnesses: the engine is unreachable, both
translation directions are the identity, and the detected language is en. -/
def sampleEnv : PipelineEnv :=
  ⟨fun _ => .exn "Connection refused", fun t _ => t, fun t _ => t, "en"⟩

/-- C3: an in-domain request with classifier confidence ≥ 0.7 (inclusive)
is answered by the local response generator with response_source
"college_ai", and the external engine is not called. -/
theorem high_confidence_uses_local_generator (env : PipelineEnv) (text lang : String)
    (hdom : (classify_intent text).isCollegeRelated = true)
    (hconf : (7 : ℚ) / 10 ≤ (classify_intent text).confidence) :
    (chat_send_message env text lang).responseSource = some "college_ai" ∧
    (chat_send_message env text lang).rasaCalled = false ∧
    (chat_send_message env text lang).generatorCalled = true ∧
    (chat_send_message env text lang).botTextEn =
      generate_response (classify_intent text).intent text ∧
    (chat_send_message env text lang).intent = (classify_intent text).intent ∧
    (chat_send_message env text lang).confidence = some (classify_intent text).confidence := by
  simp [chat_send_message, finishPipeline, hdom, hconf]

/-- Witness for C3: on "hostel accommodation available" the classifier
confidence is exactly 7/10 and the local branch is taken. -/
theorem high_confidence_uses_local_generator_witness :
    (classify_intent "hostel accommodation available").confidence = 7 / 10 ∧
    (chat_send_message sampleEnv "hostel accommodation available" "en").responseSource =
      some "college_ai" ∧
    (chat_send_message sampleEnv "hostel accommodation available" "en").rasaCalled = false := by
  have h := high_confidence_uses_local_generator sampleEnv "hostel accommodation available" "en"
    (by with_unfolding_all decide) (by with_unfolding_all decide)
  exact ⟨by with_unfolding_all decide, h.1, h.2.1⟩

/-- C4: a request classified out of domain is answered with the fixed
restricted-topic message (translated when the resolved language is not
en), marked restricted with intent non_college_topic, and neither the
external engine nor the response generator is called. -/
theorem restricted_gate (env : PipelineEnv) (text lang : String)
    (hdom : (classify_intent text).isCollegeRelated = false) :
    (chat_send_message env text lang).restricted = true ∧
    (chat_send_message env text lang).rasaCalled = false ∧
    (chat_send_message env text lang).generatorCalled = false ∧
    (chat_send_message env text lang).intent = "non_college_topic" ∧
    (chat_send_message env text lang).botTextEn = restrictedResponseText ∧
    (chat_send_message env text lang).message =
      (if resolveLanguage lang env.detectedLanguage ≠ "en" then
         env.translateFromRasa restrictedResponseText (resolveLanguage lang env.detectedLanguage)
       else restrictedResponseText) := by
  simp [chat_send_message, hdom]

/-- Witness for C4 at the concrete text "hello there". -/
theorem restricted_gate_witness :
    (chat_send_message sampleEnv "hello there" "en").restricted = true ∧
    (chat_send_message sampleEnv "hello there" "en").rasaCalled = false ∧
    (chat_send_message sampleEnv "hello there" "en").generatorCalled = false ∧
    (chat_send_message sampleEnv "hello there" "en").message = restrictedResponseText := by
  have h := restricted_gate sampleEnv "hello there" "en" (by with_unfolding_all decide)
  exact ⟨h.1, h.2.1, h.2.2.1, (h.2.2.2.2.2).trans (by rfl)⟩

/-- C5: an in-domain request with confidence < 0.7 whose external-engine
call fails is answered with the nonempty default response of the generator,
response_source "college_ai_fallback", intent forced to "fallback", and
confidence set to the neutral 1/2; the pipeline is a total function, so no
exception reaches the caller. -/
theorem engine_failure_fallback (env : PipelineEnv) (text lang : String)
    (hdom : (classify_intent text).isCollegeRelated = true)
    (hconf : (classify_intent text).confidence < 7 / 10)
    (hfail : (rasa_send_message (env.rasaOutcome
      (env.translateForRasa text env.detectedLanguage))).success = false) :
    (chat_send_message env text lang).responseSource = some "college_ai_fallback" ∧
    (chat_send_message env text lang).intent = "fallback" ∧
    (chat_send_message env text lang).confidence = some (1 / 2) ∧
    (chat_send_message env text lang).botTextEn = generateDefaultResponse ∧
    generateDefaultResponse ≠ "" := by
  have hnot : ¬ ((7 : ℚ) / 10 ≤ (classify_intent text).confidence) := not_le.mpr hconf
  refine ⟨?_, ?_, ?_, ?_, by decide⟩ <;>
    simp [chat_send_message, finishPipeline, hdom, hnot, hfail]

/-- Witness for C5: "fee" classifies in-domain at confidence 3/10 and the
unreachable engine forces the fallback. -/
theorem engine_failure_fallback_witness :
    (chat_send_message sampleEnv "fee" "en").responseSource = some "college_ai_fallback" ∧
    (chat_send_message sampleEnv "fee" "en").intent = "fallback" ∧
    (chat_send_message sampleEnv "fee" "en").confidence = some (1 / 2) := by
  have h := engine_failure_fallback sampleEnv "fee" "en" (by with_unfolding_all decide)
    (by with_unfolding_all decide) (by with_unfolding_all decide)
  exact ⟨h.1, h.2.1, h.2.2.1⟩
